import Mathlib

/-!
Verification development for the interactive storytelling orchestration core.

The Python sources are shallowly embedded:
* Python/JSON values are modelled by the inductive `JVal`; Python `None` and
  JSON `null` are both `JVal.null` (which matches `dict.get` collapsing the
  missing-key and explicit-`None` cases).
* Python dicts are ordered association lists (`Dict`), mirroring insertion
  order; `dictGet` models `d.get(k)` (returning `None` on a missing key),
  `dictContains` models `k in d`, and `dictSet` models `d[k] = v`.
* Fallible code returns `Except PyError _`, with `PyError` naming the Python
  exception class that would be raised.
* The opaque generative calls (HF chat endpoints, smolagents CodeAgent runs)
  are parameters: functions supplied to the embedded definitions, indexed by
  call number where a call site is invoked repeatedly.
-/

/-- JSON-like Python values (the payloads flowing between the tools). -/
inductive JVal where
  | null : JVal
  | bool : Bool → JVal
  | int : Int → JVal
  | str : String → JVal
  | arr : List JVal → JVal
  | obj : List (String × JVal) → JVal
deriving Repr

mutual

/-- Structural equality test for `JVal` (models Python `==` on these values). -/
def JVal.beq : JVal → JVal → Bool
  | .null, .null => true
  | .bool x, .bool y => x == y
  | .int x, .int y => x == y
  | .str x, .str y => x == y
  | .arr xs, .arr ys => JVal.beqList xs ys
  | .obj xs, .obj ys => JVal.beqObj xs ys
  | _, _ => false

/-- Elementwise equality of `JVal` lists. -/
def JVal.beqList : List JVal → List JVal → Bool
  | [], [] => true
  | x :: xs, y :: ys => JVal.beq x y && JVal.beqList xs ys
  | _, _ => false

/-- Pairwise equality of key/value lists. -/
def JVal.beqObj : List (String × JVal) → List (String × JVal) → Bool
  | [], [] => true
  | (k₁, v₁) :: xs, (k₂, v₂) :: ys => k₁ == k₂ && JVal.beq v₁ v₂ && JVal.beqObj xs ys
  | _, _ => false

end

mutual

theorem JVal.beq_iff : ∀ (a c : JVal), JVal.beq a c = true ↔ a = c
  | .null, c => by cases c <;> simp [JVal.beq]
  | .bool x, c => by cases c <;> simp [JVal.beq]
  | .int x, c => by cases c <;> simp [JVal.beq]
  | .str x, c => by cases c <;> simp [JVal.beq]
  | .arr xs, c => by
      cases c <;> simp only [JVal.beq] <;> simp
      exact JVal.beqList_iff xs _
  | .obj xs, c => by
      cases c <;> simp only [JVal.beq] <;> simp
      exact JVal.beqObj_iff xs _

theorem JVal.beqList_iff : ∀ (xs ys : List JVal), JVal.beqList xs ys = true ↔ xs = ys
  | [], ys => by cases ys <;> simp [JVal.beqList]
  | x :: xs, ys => by
      cases ys with
      | nil => simp [JVal.beqList]
      | cons y ys =>
          simp only [JVal.beqList, Bool.and_eq_true, List.cons.injEq]
          rw [JVal.beq_iff x y, JVal.beqList_iff xs ys]

theorem JVal.beqObj_iff : ∀ (xs ys : List (String × JVal)), JVal.beqObj xs ys = true ↔ xs = ys
  | [], ys => by cases ys <;> simp [JVal.beqObj]
  | (k₁, v₁) :: xs, ys => by
      cases ys with
      | nil => simp [JVal.beqObj]
      | cons y ys =>
          obtain ⟨k₂, v₂⟩ := y
          simp only [JVal.beqObj, Bool.and_eq_true, List.cons.injEq, Prod.mk.injEq,
            beq_iff_eq]
          rw [JVal.beq_iff v₁ v₂, JVal.beqObj_iff xs ys]

end

instance : DecidableEq JVal := fun a c =>
  decidable_of_iff (JVal.beq a c = true) (JVal.beq_iff a c)

/-- A Python dict with string keys, as an ordered association list. -/
abbrev Dict := List (String × JVal)

/-- `d.get(k)`: the value of the first binding of `k`, `None` when missing. -/
def dictGet (d : Dict) (k : String) : JVal :=
  match d with
  | [] => JVal.null
  | (k₀, v₀) :: rest => if k₀ = k then v₀ else dictGet rest k

/-- `k in d`: key membership. -/
def dictContains (d : Dict) (k : String) : Bool :=
  match d with
  | [] => false
  | (k₀, _) :: rest => k₀ == k || dictContains rest k

/-- `d[k] = v`: overwrite the first binding of `k` in place, else append. -/
def dictSet (d : Dict) (k : String) (v : JVal) : Dict :=
  match d with
  | [] => [(k, v)]
  | (k₀, v₀) :: rest => if k₀ = k then (k, v) :: rest else (k₀, v₀) :: dictSet rest k v

namespace ToolsValidateConsistency
/- Embedding of src/Tools/validate_consistency.py. -/

/-- The three core keys checked for contradictions. -/
def core_keys : List String := ["location", "weather", "time_of_day"]

/-- The `for key in core_keys` loop body of `validate_consistency`: returns
`false` on the first core key whose old and new values are both non-`None`
and differ, else falls through to `true`. -/
def checkKeys (old_facts new_facts : Dict) : List String → Bool
  | [] => true
  | key :: rest =>
      let old_val := dictGet old_facts key
      let new_val := dictGet new_facts key
      if old_val ≠ JVal.null ∧ new_val ≠ JVal.null ∧ old_val ≠ new_val then false
      else checkKeys old_facts new_facts rest

/-- `validate_consistency(old_facts, new_facts)` from
src/Tools/validate_consistency.py: new facts contradict old facts iff some
core key has differing non-`None` values on both sides. -/
def validate_consistency (old_facts new_facts : Dict) : Bool :=
  checkKeys old_facts new_facts core_keys

theorem checkKeys_eq_false_iff (old_facts new_facts : Dict) (ks : List String) :
    checkKeys old_facts new_facts ks = false ↔
      ∃ k ∈ ks, dictGet old_facts k ≠ JVal.null ∧ dictGet new_facts k ≠ JVal.null ∧
        dictGet old_facts k ≠ dictGet new_facts k := by
  induction ks with
  | nil => simp [checkKeys]
  | cons key rest ih =>
      by_cases h : dictGet old_facts key ≠ JVal.null ∧ dictGet new_facts key ≠ JVal.null ∧
          dictGet old_facts key ≠ dictGet new_facts key
      · simp only [checkKeys, if_pos h]
        constructor
        · intro _
          exact ⟨key, List.mem_cons_self _ _, h⟩
        · intro _
          trivial
      · simp only [checkKeys, if_neg h, ih]
        constructor
        · rintro ⟨k, hk, hprop⟩
          exact ⟨k, List.mem_cons_of_mem _ hk, hprop⟩
        · rintro ⟨k, hk, hprop⟩
          rcases List.mem_cons.mp hk with hk | hk
          · exact absurd (hk ▸ hprop) h
          · exact ⟨k, hk, hprop⟩

theorem checkKeys_congr (old₁ new₁ old₂ new₂ : Dict) (ks : List String)
    (h : ∀ k ∈ ks, dictGet old₂ k = dictGet old₁ k ∧ dictGet new₂ k = dictGet new₁ k) :
    checkKeys old₂ new₂ ks = checkKeys old₁ new₁ ks := by
  induction ks with
  | nil => rfl
  | cons key rest ih =>
      have hkey := h key (List.mem_cons_self _ _)
      have hrest := ih fun k hk => h k (List.mem_cons_of_mem _ hk)
      simp only [checkKeys, hkey.1, hkey.2, hrest]

end ToolsValidateConsistency

namespace ToolsPy
/- Embedding of the duplicate `validate_consistency` in src/tools.py. -/

/-- The three core keys checked for contradictions (src/tools.py copy). -/
def core_keys : List String := ["location", "weather", "time_of_day"]

/-- The `for key in core_keys` loop body of the src/tools.py copy of
`validate_consistency`. -/
def checkKeys (old_facts new_facts : Dict) : List String → Bool
  | [] => true
  | key :: rest =>
      let old_val := dictGet old_facts key
      let new_val := dictGet new_facts key
      if old_val ≠ JVal.null ∧ new_val ≠ JVal.null ∧ old_val ≠ new_val then false
      else checkKeys old_facts new_facts rest

/-- `validate_consistency(old_facts, new_facts)` from src/tools.py
(lines 426-443), the second copy of the consistency checker. -/
def validate_consistency (old_facts new_facts : Dict) : Bool :=
  checkKeys old_facts new_facts core_keys

end ToolsPy

/-- C1: `validate_consistency` returns `false` iff at least one core key has
non-null values on both sides that differ; absence (null/missing collapse to
`JVal.null` under `dict.get`) never causes `false`, and the result depends
only on the core-key lookups, so non-core keys have no effect. -/
theorem validate_consistency_spec (old_facts new_facts : Dict) :
    (ToolsValidateConsistency.validate_consistency old_facts new_facts = false ↔
      ∃ k ∈ ToolsValidateConsistency.core_keys,
        dictGet old_facts k ≠ JVal.null ∧ dictGet new_facts k ≠ JVal.null ∧
          dictGet old_facts k ≠ dictGet new_facts k) ∧
    (∀ old₂ new₂ : Dict,
      (∀ k ∈ ToolsValidateConsistency.core_keys,
        dictGet old₂ k = dictGet old_facts k ∧ dictGet new₂ k = dictGet new_facts k) →
      ToolsValidateConsistency.validate_consistency old₂ new₂ =
        ToolsValidateConsistency.validate_consistency old_facts new_facts) := by
  constructor
  · exact ToolsValidateConsistency.checkKeys_eq_false_iff old_facts new_facts _
  · intro old₂ new₂ h
    exact ToolsValidateConsistency.checkKeys_congr old_facts new_facts old₂ new₂ _ h

/-- C1 witness: at a concrete pair with differing non-null locations the
characterization yields `false`; with the value absent on one side it yields
`true`. -/
theorem validate_consistency_spec_witness :
    ToolsValidateConsistency.validate_consistency
      [("location", JVal.str "forest")] [("location", JVal.str "beach")] = false ∧
    ToolsValidateConsistency.validate_consistency
      [("location", JVal.str "forest")] [("weather", JVal.str "rainy")] = true := by
  constructor
  · exact (validate_consistency_spec [("location", JVal.str "forest")]
      [("location", JVal.str "beach")]).1.mpr
      ⟨"location", by decide, by decide, by decide, by decide⟩
  · have h := (validate_consistency_spec [("location", JVal.str "forest")]
      [("weather", JVal.str "rainy")]).1
    cases hv : ToolsValidateConsistency.validate_consistency
        [("location", JVal.str "forest")] [("weather", JVal.str "rainy")]
    · exfalso
      rcases h.mp hv with ⟨k, hk, h₁, h₂, h₃⟩
      fin_cases hk <;> revert h₁ h₂ h₃ <;> decide
    · rfl

/-- C10: the two duplicate consistency checkers, in src/tools.py and in
src/Tools/validate_consistency.py, are extensionally equal. -/
theorem validate_consistency_duplicates_agree (old_facts new_facts : Dict) :
    ToolsPy.validate_consistency old_facts new_facts =
      ToolsValidateConsistency.validate_consistency old_facts new_facts := by
  have h : ∀ ks : List String,
      ToolsPy.checkKeys old_facts new_facts ks =
        ToolsValidateConsistency.checkKeys old_facts new_facts ks := by
    intro ks
    induction ks with
    | nil => rfl
    | cons key rest ih =>
        simp only [ToolsPy.checkKeys, ToolsValidateConsistency.checkKeys, ih]
  exact h _

/-- Python exception classes that the embedded code can raise. -/
inductive PyError where
  | typeError : PyError
  | valueError : PyError
  | keyError : PyError
deriving Repr, DecidableEq

/-- Python `key in container` for `JVal` containers: key lookup on dicts,
element membership on lists, substring test on strings; numbers, booleans
and `None` are not iterable, so `in` raises a `TypeError` on them. -/
def pyContainsKey (v : JVal) (key : String) : Except PyError Bool :=
  match v with
  | .obj kvs => .ok (dictContains kvs key)
  | .arr xs => .ok (xs.contains (JVal.str key))
  | .str t => .ok ((t.splitOn key).length ≥ 2)
  | _ => .error .typeError

/-- Python `container[key] = value` for a string `key`: in-place update on
dicts; lists and strings reject string indices/assignment with `TypeError`. -/
def pySetItem (v : JVal) (key : String) (val : JVal) : Except PyError JVal :=
  match v with
  | .obj kvs => .ok (.obj (dictSet kvs key val))
  | _ => .error .typeError

namespace ExtractFactsTool
/- Embedding of `ExtractFactsTool.forward` in src/Tools/extract_facts.py.
The HF chat call and `json.loads` are opaque: `forward` takes the outcome of
`json.loads(resp.strip())` directly — `none` when `json.loads` raised, and
`some j` when it parsed to the JSON value `j`. -/

/-- The all-default 7-key schema (both the parse-failure fallback dict and
the `defaults` table of the key-fill loop, which are textually identical in
the source). -/
def defaults : Dict :=
  [("location", JVal.null), ("weather", JVal.null), ("time_of_day", JVal.null),
   ("main_character", JVal.null), ("npc_states", JVal.obj []),
   ("inventory_items", JVal.arr []), ("events", JVal.str "")]

/-- The `for key, default_val in defaults.items()` loop: fill each key that is
not `in` `fact_dict` with its default (raising on non-dict `fact_dict` just as
Python `in`/item assignment would). -/
def fillLoop (fact_dict : JVal) : List (String × JVal) → Except PyError JVal
  | [] => .ok fact_dict
  | (key, default_val) :: rest =>
      match pyContainsKey fact_dict key with
      | .error e => .error e
      | .ok present =>
          if present then fillLoop fact_dict rest
          else
            match pySetItem fact_dict key default_val with
            | .error e => .error e
            | .ok fact_dict' => fillLoop fact_dict' rest

/-- `ExtractFactsTool.forward` after the chat call: `parsed` is the outcome of
`json.loads` on the raw model output (`none` = parse exception, handled by
substituting the all-default schema); then every missing schema key is filled
with its default. -/
def forward (parsed : Option JVal) : Except PyError JVal :=
  let fact_dict : JVal :=
    match parsed with
    | some j => j
    | none => .obj defaults
  fillLoop fact_dict defaults

end ExtractFactsTool

namespace GenerateChoices
/- Embedding of `generate_choices` in src/Tools/generate_choices.py, after the
chat call: `parsed` is the outcome of `json.loads(resp.strip())` (`none` =
parse exception). -/

/-- The `all(isinstance(c, str) for c in choices)` check combined with the
return of the (string) choices: `some` of the underlying strings when every
element is a string, else `none`. -/
def allStrings : List JVal → Option (List String)
  | [] => some []
  | .str t :: rest => (allStrings rest).map (t :: ·)
  | _ => none

/-- `generate_choices` validation: a parsed list of 2 to 4 strings is returned
as is; anything else (parse failure, non-list, wrong length, non-string
element) falls back to the fixed two-option default. -/
def generate_choices (parsed : Option JVal) : List String :=
  match parsed with
  | none => ["Continue forward", "Turn back"]
  | some choices =>
      match choices with
      | .arr cs =>
          if 2 ≤ cs.length ∧ cs.length ≤ 4 then
            match allStrings cs with
            | some ss => ss
            | none => ["Continue forward", "Turn back"]
          else ["Continue forward", "Turn back"]
      | _ => ["Continue forward", "Turn back"]

theorem allStrings_eq_some_iff (cs : List JVal) (ss : List String) :
    allStrings cs = some ss ↔ cs = ss.map JVal.str := by
  induction cs generalizing ss with
  | nil => cases ss <;> simp [allStrings]
  | cons c rest ih =>
      cases c with
      | str t =>
          cases ss with
          | nil => simp [allStrings, Option.map_eq_some']
          | cons t' ts =>
              simp only [allStrings, Option.map_eq_some', List.map_cons, List.cons.injEq,
                JVal.str.injEq]
              constructor
              · rintro ⟨us, hus, h₁, h₂⟩
                subst h₁
                subst h₂
                exact ⟨rfl, (ih _).mp hus⟩
              · rintro ⟨rfl, hrest⟩
                exact ⟨ts, (ih ts).mpr hrest, rfl, rfl⟩
      | null => cases ss <;> simp [allStrings]
      | bool x => cases ss <;> simp [allStrings]
      | int x => cases ss <;> simp [allStrings]
      | arr xs => cases ss <;> simp [allStrings]
      | obj xs => cases ss <;> simp [allStrings]

end GenerateChoices

/-- C7: `generate_choices` returns a well-formed parsed output (a list of 2 to
4 strings) unchanged, and returns exactly `["Continue forward", "Turn back"]`
on every malformed output (unparseable, non-list, wrong length, or containing
a non-string entry). -/
theorem generate_choices_spec (parsed : Option JVal) :
    (∀ ss : List String, parsed = some (JVal.arr (ss.map JVal.str)) →
      2 ≤ ss.length → ss.length ≤ 4 →
      GenerateChoices.generate_choices parsed = ss) ∧
    ((¬ ∃ ss : List String, parsed = some (JVal.arr (ss.map JVal.str)) ∧
        2 ≤ ss.length ∧ ss.length ≤ 4) →
      GenerateChoices.generate_choices parsed = ["Continue forward", "Turn back"]) := by
  constructor
  · rintro ss rfl h₂ h₄
    have hall : GenerateChoices.allStrings (ss.map JVal.str) = some ss :=
      (GenerateChoices.allStrings_eq_some_iff _ _).mpr rfl
    simp only [GenerateChoices.generate_choices, List.length_map]
    rw [if_pos ⟨h₂, h₄⟩, hall]
  · intro hmal
    match parsed with
    | none => rfl
    | some (JVal.null) => rfl
    | some (JVal.bool x) => rfl
    | some (JVal.int x) => rfl
    | some (JVal.str x) => rfl
    | some (JVal.obj kvs) => rfl
    | some (JVal.arr cs) =>
        simp only [GenerateChoices.generate_choices]
        by_cases hlen : 2 ≤ cs.length ∧ cs.length ≤ 4
        · rw [if_pos hlen]
          cases hall : GenerateChoices.allStrings cs with
          | none => rfl
          | some ss =>
              exfalso
              have hcs := (GenerateChoices.allStrings_eq_some_iff cs ss).mp hall
              refine hmal ⟨ss, by rw [hcs], ?_, ?_⟩
              · simpa [hcs] using hlen.1
              · simpa [hcs] using hlen.2
        · rw [if_neg hlen]

/-- C7 witness: a well-formed two-string list is returned unchanged, and a
wrong-length list falls back to the default pair. -/
theorem generate_choices_spec_witness :
    GenerateChoices.generate_choices
      (some (JVal.arr [JVal.str "Open the door", JVal.str "Run away"])) =
      ["Open the door", "Run away"] ∧
    GenerateChoices.generate_choices (some (JVal.arr [JVal.str "Only one"])) =
      ["Continue forward", "Turn back"] := by
  constructor
  · exact (generate_choices_spec
      (some (JVal.arr [JVal.str "Open the door", JVal.str "Run away"]))).1
      ["Open the door", "Run away"] rfl (by decide) (by decide)
  · refine (generate_choices_spec (some (JVal.arr [JVal.str "Only one"]))).2 ?_
    rintro ⟨ss, hss, h₂, h₄⟩
    have : ss.length = 1 := by
      have := congrArg (fun j : Option JVal =>
        match j with
        | some (JVal.arr cs) => cs.length
        | _ => 0) hss
      simpa using this.symm
    omega

mutual

/-- A rendering of `json.dumps` for `JVal` (src/store_facts.py dumps the facts
dict into the context window; only the presence of this dump, not its exact
spacing, matters to the properties below, so indentation is not reproduced). -/
def dumpJVal : JVal → String
  | .null => "null"
  | .bool x => if x then "true" else "false"
  | .int x => toString x
  | .str t => "\"" ++ t ++ "\""
  | .arr xs => "[" ++ dumpJValList xs ++ "]"
  | .obj kvs => "\x7b" ++ dumpJValObj kvs ++ "\x7d"

/-- Comma-separated rendering of a `JVal` list. -/
def dumpJValList : List JVal → String
  | [] => ""
  | [x] => dumpJVal x
  | x :: xs => dumpJVal x ++ ", " ++ dumpJValList xs

/-- Comma-separated rendering of key/value pairs. -/
def dumpJValObj : List (String × JVal) → String
  | [] => ""
  | [(k, v)] => "\"" ++ k ++ "\": " ++ dumpJVal v
  | (k, v) :: kvs => "\"" ++ k ++ "\": " ++ dumpJVal v ++ ", " ++ dumpJValObj kvs

end

/-- Python `lst[-n:]` for a non-negative `n`: the whole list when `n = 0`
(the slice `[-0:]` is `[0:]`), else the suffix of length at most `n`. -/
def pySliceLast {α : Type} (l : List α) (n : Nat) : List α :=
  if n = 0 then l else l.drop (l.length - n)

/-- `StoryState` from src/store_facts.py: scene history, facts, NPC states,
per-scene world metadata and media path lists. -/
structure StoryState where
  scene_history : List String
  facts : Dict
  npc_states : Dict
  world_meta : List Dict
  audio_paths : List String
  image_paths : List String
deriving Repr, DecidableEq

/-- The structural (JSON) form of a `StoryState` produced by `to_dict` and
consumed by `from_dict`: each of the six keys may be present or absent. -/
structure StateDict where
  scene_history : Option (List String)
  facts : Option Dict
  npc_states : Option Dict
  world_meta : Option (List Dict)
  audio_paths : Option (List String)
  image_paths : Option (List String)
deriving Repr, DecidableEq

/-- `StoryState.update_facts`: shallow merge — every key of `new_facts`
overwrites `facts[key]`, keys absent from `new_facts` are untouched. -/
def StoryState.update_facts (s : StoryState) (new_facts : Dict) : StoryState :=
  { s with facts := new_facts.foldl (fun facts kv => dictSet facts kv.1 kv.2) s.facts }

/-- `StoryState.append_scene`: append one scene to the history. -/
def StoryState.append_scene (s : StoryState) (scene_text : String) : StoryState :=
  { s with scene_history := s.scene_history ++ [scene_text] }

/-- `StoryState.update_world_meta`: append one world snapshot (defined in
src/store_facts.py; no caller in the repository invokes it). -/
def StoryState.update_world_meta (s : StoryState) (world : Dict) : StoryState :=
  { s with world_meta := s.world_meta ++ [world] }

/-- `StoryState.get_context_window(n)`: the last `n` scenes (via the Python
slice `[-n:]`) joined by newlines, then the facts dump; each section present
only when its text/dict is truthy. -/
def StoryState.get_context_window (s : StoryState) (n : Nat) : String :=
  let last_scenes := pySliceLast s.scene_history n
  let scenes_text := String.intercalate "\n" last_scenes
  let facts_json := dumpJVal (JVal.obj s.facts)
  let context_parts : List String :=
    (if scenes_text ≠ "" then ["Recent scenes:\n" ++ scenes_text] else []) ++
    (if s.facts ≠ [] then ["Current facts:\n" ++ facts_json] else [])
  String.intercalate "\n\n" context_parts

/-- `StoryState.to_dict`: serialize all six fields. -/
def StoryState.to_dict (s : StoryState) : StateDict :=
  ⟨some s.scene_history, some s.facts, some s.npc_states, some s.world_meta,
    some s.audio_paths, some s.image_paths⟩

/-- `StoryState.from_dict`: rebuild a state, defaulting each absent field to
empty (`data.get(key, [] or default)` in the source). -/
def StoryState.from_dict (data : StateDict) : StoryState :=
  ⟨data.scene_history.getD [], data.facts.getD [], data.npc_states.getD [],
    data.world_meta.getD [], data.audio_paths.getD [], data.image_paths.getD []⟩

/-- C6: `from_dict (to_dict s) = s` for every state — all six fields
round-trip with full fidelity — and `from_dict` on a structural form with all
collection fields absent defaults them all to empty instead of failing. -/
theorem storystate_roundtrip (s : StoryState) :
    StoryState.from_dict (StoryState.to_dict s) = s ∧
    StoryState.from_dict ⟨none, none, none, none, none, none⟩ =
      ⟨[], [], [], [], [], []⟩ :=
  ⟨rfl, rfl⟩

/-- The last `n` entries of a list (all of them when the list is shorter):
the specification-side notion of a trailing window. -/
def lastN {α : Type} (l : List α) (n : Nat) : List α :=
  l.drop (l.length - n)

/-- C9 counterexample: with `n = 0` and a one-scene history the context
window contains the scene (Python `[-0:]` slices the whole list), whereas the
claim says the scenes section contains exactly the last 0 entries, i.e. is
omitted, which with empty facts would make the result `""`. -/
theorem get_context_window_counterexample :
    StoryState.get_context_window ⟨["A"], [], [], [], [], []⟩ 0 = "Recent scenes:\nA" ∧
    StoryState.get_context_window ⟨["A"], [], [], [], [], []⟩ 0 ≠ "" := by
  refine ⟨rfl, ?_⟩
  decide

/-- C9 (amended): the scenes section of `get_context_window n` is built from
the last `n` entries of the history when `n ≥ 1`, but from the whole history
when `n = 0`; the section is omitted when the joined scenes text is empty (in
particular when the history is empty), and the facts dump follows exactly
when `facts` is non-empty — so with an empty history the window reduces to
the facts dump alone (or `""` when facts are empty too). -/
theorem get_context_window_amended (s : StoryState) (n : Nat) :
    (StoryState.get_context_window s n =
      (let scenes := if n = 0 then s.scene_history else lastN s.scene_history n
       let scenes_text := String.intercalate "\n" scenes
       String.intercalate "\n\n"
         ((if scenes_text ≠ "" then ["Recent scenes:\n" ++ scenes_text] else []) ++
          (if s.facts ≠ [] then ["Current facts:\n" ++ dumpJVal (JVal.obj s.facts)]
           else [])))) ∧
    (s.scene_history = [] →
      StoryState.get_context_window s n =
        (if s.facts ≠ [] then "Current facts:\n" ++ dumpJVal (JVal.obj s.facts)
         else "")) := by
  constructor
  · rfl
  · intro h
    have hs : pySliceLast s.scene_history n = [] := by
      rw [h]
      unfold pySliceLast
      by_cases hn : n = 0 <;> simp [hn]
    by_cases hf : s.facts = []
    · simp [StoryState.get_context_window, hs, hf, String.intercalate]
    · simp only [StoryState.get_context_window, hs, hf, String.intercalate]
      simp [String.intercalate]
      rw [if_neg hf, if_neg hf]
      rfl

/-- C9 witness: the amended characterization applied at the concrete state
with empty history and a non-empty facts dict, at `n = 0`. -/
theorem get_context_window_amended_witness :
    StoryState.get_context_window ⟨[], [("location", JVal.str "cave")], [], [], [], []⟩ 0 =
      "Current facts:\n" ++ dumpJVal (JVal.obj [("location", JVal.str "cave")]) := by
  have h := (get_context_window_amended
    ⟨[], [("location", JVal.str "cave")], [], [], [], []⟩ 0).2 rfl
  simpa using h

/- Embedding of the orchestrator in src/main.py (`advance_story`). The
generative tools are opaque adapters passed in as functions; the scene and
fact tools are indexed by call number because the retry loop re-invokes them. -/

/-- `MAX_FACT_RETRIES` from src/main.py. -/
def MAX_FACT_RETRIES : Nat := 2

/-- `MAX_IMAGE_RETRIES` from src/main.py. -/
def MAX_IMAGE_RETRIES : Nat := 2

/-- The `scene_args` dict passed to `StoryGeneratorTool.forward`. -/
structure SceneArgs where
  context : String
  initial_prompt : Option String
  last_choice : Option String
deriving Repr, DecidableEq

/-- The opaque generative collaborators used by one `advance_story` turn.
`sceneGen`/`factGen` take the index of the call within the turn (0 = the
initial generation, `i` = the i-th retry) since the retry loop re-invokes
them and each invocation of the underlying model may answer differently. -/
structure Adapters where
  sceneGen : Nat → SceneArgs → String
  factGen : Nat → String → Dict
  worldTool : Dict → Dict
  choicesTool : String → Dict → List String
  ttsTool : String → String
  b64encode : String → String
  imageDecider : Dict → Dict → Bool
  imageGen : JVal → String
  extractScene : String → Bool

/-- The consistency retry loop of `advance_story` (src/main.py lines 57-67):
while the new facts contradict the committed facts, regenerate scene and
facts with the same `scene_args` (the loop body only re-assigns
`last_choice` to its current value); the source counts `retries` upward and
breaks once `retries > MAX_FACT_RETRIES`, which is mirrored here by the
downward-counting `budget = MAX_FACT_RETRIES - k` with `k` the index of the
generation currently held. Returns the scene and facts finally committed. -/
def factRetryLoop (A : Adapters) (state_facts : Dict) (last_choice : Option String)
    (scene_args : SceneArgs) (scene_text : String) (new_facts : Dict) (k : Nat) :
    Nat → String × Dict
  | 0 => (scene_text, new_facts)
  | b + 1 =>
      if ToolsValidateConsistency.validate_consistency state_facts new_facts then
        (scene_text, new_facts)
      else
        let scene_args' := { scene_args with last_choice := last_choice }
        let scene_text' := A.sceneGen (k + 1) scene_args'
        let new_facts' := A.factGen (k + 1) scene_text'
        factRetryLoop A state_facts last_choice scene_args' scene_text' new_facts' (k + 1) b

/-- The image retry loop of `advance_story` (src/main.py lines 84-91): the
source counts `img_retries` from 0 while `img_retries <= MAX_IMAGE_RETRIES`,
mirrored here by a budget of remaining iterations (`MAX_IMAGE_RETRIES + 1` at
entry); the candidate is accepted when `extract_scene` on the current context
is truthy, else the slot stays empty after the budget runs out. -/
def imageRetryLoop (A : Adapters) (setting_description : JVal) (ctx : String) :
    Nat → Option String
  | 0 => none
  | b + 1 =>
      let img_bytes := A.imageGen setting_description
      if A.extractScene ctx then some (A.b64encode img_bytes)
      else imageRetryLoop A setting_description ctx b

/-- The dict returned by `advance_story` (step 8, package and return). -/
structure AdvanceResponse where
  scene_text : String
  updated_state : StateDict
  world_meta : Dict
  choices : List String
  audio_b64 : String
  image_b64 : Option String
deriving Repr, DecidableEq

/-- `advance_story(state, initial_prompt, last_choice)` from src/main.py:
generate a scene, extract facts, retry on inconsistency, merge into state,
build world metadata, generate choices, narrate, maybe generate an image,
package. Returns the response dict together with the final (mutated) state
whose serialized form is the response's `updated_state`. -/
def advance_story (A : Adapters) (state : StoryState)
    (initial_prompt last_choice : Option String) : AdvanceResponse × StoryState :=
  let scene_args : SceneArgs := ⟨state.get_context_window 3, initial_prompt, last_choice⟩
  let scene_text := A.sceneGen 0 scene_args
  let new_facts := A.factGen 0 scene_text
  let result := factRetryLoop A state.facts last_choice scene_args scene_text new_facts 0
    MAX_FACT_RETRIES
  let scene_text := result.1
  let new_facts := result.2
  let state := state.update_facts new_facts
  let state := state.append_scene scene_text
  let world_meta := A.worldTool state.facts
  let choices := A.choicesTool scene_text state.facts
  let audio_b64 := A.b64encode (A.ttsTool scene_text)
  let image_b64 :=
    if A.imageDecider state.facts new_facts then
      imageRetryLoop A (dictGet world_meta "setting_description")
        (state.get_context_window 3) (MAX_IMAGE_RETRIES + 1)
    else none
  (⟨scene_text, state.to_dict, world_meta, choices, audio_b64, image_b64⟩, state)

theorem factRetryLoop_result (A : Adapters) (sf : Dict) (lc : Option String)
    (args : SceneArgs) (h : args.last_choice = lc) :
    ∀ (budget k : Nat),
      ∃ j, k ≤ j ∧ j ≤ k + budget ∧
        factRetryLoop A sf lc args (A.sceneGen k args) (A.factGen k (A.sceneGen k args))
            k budget =
          (A.sceneGen j args, A.factGen j (A.sceneGen j args)) := by
  have hargs : ({ args with last_choice := lc } : SceneArgs) = args := by
    cases args
    cases h
    rfl
  intro budget
  induction budget with
  | zero =>
      intro k
      exact ⟨k, le_refl _, by omega, rfl⟩
  | succ b ih =>
      intro k
      by_cases hc : ToolsValidateConsistency.validate_consistency sf
          (A.factGen k (A.sceneGen k args)) = true
      · refine ⟨k, le_refl _, by omega, ?_⟩
        simp only [factRetryLoop]
        rw [if_pos hc]
      · obtain ⟨j, h₁, h₂, h₃⟩ := ih (k + 1)
        refine ⟨j, by omega, by omega, ?_⟩
        simp only [factRetryLoop]
        rw [if_neg hc, hargs]
        exact h₃

/-- C2: `advance_story` always terminates and reaches response packaging:
for every adapter behaviour there is an attempt index `k ≤ MAX_FACT_RETRIES`
(0 = the initial generation, so at most `MAX_FACT_RETRIES = 2` additional
attempts) such that every generation used the same inputs (the one
`scene_args` built from the initial prompt, last choice and context), and the
turn commits the `k`-th generated facts and scene into the state — even when
they are still inconsistent — with the packaged response carrying that
committed state. -/
theorem advance_story_bounded_retries (A : Adapters) (state : StoryState)
    (initial_prompt last_choice : Option String) :
    ∃ k, k ≤ MAX_FACT_RETRIES ∧
      (advance_story A state initial_prompt last_choice).1.scene_text =
        A.sceneGen k ⟨state.get_context_window 3, initial_prompt, last_choice⟩ ∧
      (advance_story A state initial_prompt last_choice).2 =
        (state.update_facts (A.factGen k (A.sceneGen k
            ⟨state.get_context_window 3, initial_prompt, last_choice⟩))).append_scene
          (A.sceneGen k ⟨state.get_context_window 3, initial_prompt, last_choice⟩) ∧
      (advance_story A state initial_prompt last_choice).1.updated_state =
        (advance_story A state initial_prompt last_choice).2.to_dict := by
  obtain ⟨j, hj₀, hj₁, hj₂⟩ := factRetryLoop_result A state.facts last_choice
    ⟨state.get_context_window 3, initial_prompt, last_choice⟩ rfl MAX_FACT_RETRIES 0
  refine ⟨j, by omega, ?_, ?_, rfl⟩
  · simp only [advance_story, hj₂]
  · simp only [advance_story, hj₂]

/-- Adapters whose generative calls return fixed trivial values, used to
evaluate the orchestrator on concrete inputs. -/
def trivialAdapters : Adapters :=
  ⟨fun _ _ => "scene", fun _ _ => [], fun _ => [], fun _ _ => [], fun t => t, fun t => t,
   fun _ _ => false, fun _ => "", fun _ => false⟩

/-- C5 (evaluation at the failing input): one committed `advance_story` turn
from the empty initial state leaves `world_meta` empty while `scene_history`
grows to length 1, and in general the final state's `world_meta` equals the
input state's — `advance_story` never appends a world snapshot
(`update_world_meta` has no caller), so the invariant
`len(scene_history) == len(world_meta)` fails after every committed turn. -/
theorem advance_story_world_meta_mismatch :
    ((advance_story trivialAdapters ⟨[], [], [], [], [], []⟩
        (some "A girl walks into a rainy forest") none).2.scene_history.length = 1) ∧
    ((advance_story trivialAdapters ⟨[], [], [], [], [], []⟩
        (some "A girl walks into a rainy forest") none).2.world_meta.length = 0) ∧
    (∀ (A : Adapters) (s : StoryState) (ip lc : Option String),
      (advance_story A s ip lc).2.world_meta = s.world_meta) :=
  ⟨rfl, rfl, fun _ _ _ _ => rfl⟩

/- Embedding of the /generate_scene handler in src/app.py. The four
LLM-backed agents are opaque parameters; the consistency agent is a
`CodeAgent` registered with exactly the `validate_consistency` tool and no
model, modelled as that tool itself. -/

/-- `GenerateSceneRequest` from src/app.py. -/
structure GenerateSceneRequest where
  initial_prompt : Option String
  last_choice : Option String
  state : StateDict
deriving Repr, DecidableEq

/-- `GenerateSceneResponse` from src/app.py. -/
structure GenerateSceneResponse where
  scene_text : String
  new_facts : Dict
  is_consistent : Bool
  choices : List String
  world : Dict
  updated_state : StateDict
deriving Repr, DecidableEq

/-- `generate_scene_endpoint` from src/app.py: rebuild the state from the
request, generate a scene and facts, check consistency; on inconsistency
return immediately with empty choices and world and the unmodified state's
serialized form; otherwise merge facts, append the scene, generate choices
and world, and return everything. -/
def generate_scene_endpoint
    (story_agent : Option String → Option String → String → String)
    (fact_agent : String → Dict)
    (choices_agent : String → Dict → List String)
    (world_agent : Dict → Dict)
    (req : GenerateSceneRequest) : GenerateSceneResponse :=
  let state_obj := StoryState.from_dict req.state
  let context_str := state_obj.get_context_window 3
  let scene_text := story_agent req.initial_prompt req.last_choice context_str
  let new_facts := fact_agent scene_text
  let is_consistent := ToolsValidateConsistency.validate_consistency state_obj.facts new_facts
  if !is_consistent then
    ⟨scene_text, new_facts, false, [], [], state_obj.to_dict⟩
  else
    let state_obj := state_obj.update_facts new_facts
    let state_obj := state_obj.append_scene scene_text
    let choices := choices_agent scene_text state_obj.facts
    let world := world_agent state_obj.facts
    ⟨scene_text, new_facts, true, choices, world, state_obj.to_dict⟩

/-- C4: whenever the consistency check on the newly extracted facts fails,
the /generate_scene handler returns immediately with `is_consistent = false`,
empty choices, an empty world mapping, and `updated_state` equal to the state
supplied in the request — no facts merged, no scene appended. -/
theorem generate_scene_endpoint_inconsistent
    (story_agent : Option String → Option String → String → String)
    (fact_agent : String → Dict)
    (choices_agent : String → Dict → List String)
    (world_agent : Dict → Dict)
    (s : StoryState) (initial_prompt last_choice : Option String)
    (h : ToolsValidateConsistency.validate_consistency s.facts
        (fact_agent (story_agent initial_prompt last_choice
          (s.get_context_window 3))) = false) :
    generate_scene_endpoint story_agent fact_agent choices_agent world_agent
        ⟨initial_prompt, last_choice, s.to_dict⟩ =
      ⟨story_agent initial_prompt last_choice (s.get_context_window 3),
       fact_agent (story_agent initial_prompt last_choice (s.get_context_window 3)),
       false, [], [], s.to_dict⟩ := by
  have hfd : StoryState.from_dict (StoryState.to_dict s) = s := rfl
  simp only [generate_scene_endpoint, hfd, h]
  rfl

/-- C4 witness: a concrete request whose stored location contradicts the
extracted one short-circuits with the request's state echoed back. -/
theorem generate_scene_endpoint_inconsistent_witness :
    generate_scene_endpoint (fun _ _ _ => "A beach scene")
        (fun _ => [("location", JVal.str "beach")]) (fun _ _ => []) (fun _ => [])
        ⟨none, some "go",
          StoryState.to_dict ⟨["intro"], [("location", JVal.str "forest")], [], [], [], []⟩⟩ =
      ⟨"A beach scene", [("location", JVal.str "beach")], false, [], [],
        StoryState.to_dict ⟨["intro"], [("location", JVal.str "forest")], [], [], [], []⟩⟩ :=
  generate_scene_endpoint_inconsistent (fun _ _ _ => "A beach scene")
    (fun _ => [("location", JVal.str "beach")]) (fun _ _ => []) (fun _ => [])
    ⟨["intro"], [("location", JVal.str "forest")], [], [], [], []⟩ none (some "go")
    (by decide)

/- Embedding of `StoryGeneratorTool.forward` in src/Tools/story_generator.py
(the src/tools.py copy has the identical body). The chat call is an opaque
parameter receiving the built messages. -/

/-- One chat message, as built in `forward` (`{"role": ..., "content": ...}`);
the content is a `JVal` because the source reads it out of `system_msg` by
subscripting. -/
structure ChatMsg where
  role : String
  content : JVal
deriving Repr, DecidableEq

/-- Python `container[key]` for a string `key`: key lookup on dicts
(`KeyError` when absent); strings, lists and the other values reject string
subscripts with a `TypeError`. -/
def pyGetItem (v : JVal) (key : String) : Except PyError JVal :=
  match v with
  | .obj kvs => if dictContains kvs key then .ok (dictGet kvs key) else .error .keyError
  | _ => .error .typeError

namespace StoryGeneratorTool

/-- `StoryGeneratorTool.forward(initial_prompt, last_choice, context)`:
raises `ValueError` when both inputs are supplied; builds a system message
and user content for the initial-prompt, last-choice, or context-only case;
then builds `messages` by subscripting `system_msg["content"]` — which, in
the context-only case, subscripts the bare *string* assigned to `system_msg`
and therefore raises a `TypeError`. -/
def forward (chat : List ChatMsg → String)
    (initial_prompt last_choice : Option String) (context : String) :
    Except PyError String :=
  if initial_prompt.isSome ∧ last_choice.isSome then
    .error .valueError
  else
    let pair : JVal × String :=
      match initial_prompt with
      | some p =>
          (JVal.obj [("role", JVal.str "system"),
             ("content", JVal.str ("You are a creative, children’s‐book style storyteller. " ++
               "The user has provided the very first seed of the story. " ++
               "Generate a vivid opening scene."))],
           "User seed prompt:\n\"" ++ p ++ "\"\n\nGenerate the opening scene.")
      | none =>
          match last_choice with
          | some c =>
              (JVal.obj [("role", JVal.str "system"),
                 ("content", JVal.str ("You are a creative, children’s‐book style storyteller. " ++
                   "Continue the story from the last choice, integrating the provided context."))],
               "Context (recent scenes + facts):\n" ++ context ++
                 "\n\nLast choice: \"" ++ c ++ "\"\n\nGenerate the next scene.")
          | none =>
              (JVal.str ("You are a creative, children’s‐book style storyteller. " ++
                 "Continue the story based on the given context alone."),
               "Context (recent scenes + facts):\n" ++ context ++ "\n\nGenerate the next scene.")
    let system_msg := pair.1
    let user_content := pair.2
    match pyGetItem system_msg "content" with
    | .error e => .error e
    | .ok c => .ok (chat [⟨"system", c⟩, ⟨"user", JVal.str user_content⟩])

end StoryGeneratorTool

/-- C8 (evaluation at the failing input): with neither `initial_prompt` nor
`last_choice` supplied, `forward` raises a `TypeError` while building the
messages (the context-only branch binds `system_msg` to a bare string and
then subscripts it with `"content"`) instead of falling back to generating
from the context alone; with both supplied it raises `ValueError` before any
generation — independently of the chat collaborator, which is never
invoked on either path. -/
theorem story_generator_forward_eval :
    StoryGeneratorTool.forward (fun _ => "next scene") none none "some context" =
      .error PyError.typeError ∧
    (∀ (chat : List ChatMsg → String) (context : String),
      StoryGeneratorTool.forward chat (some "a seed") (some "a choice") context =
        .error PyError.valueError) ∧
    (∀ (chat : List ChatMsg → String) (context : String),
      StoryGeneratorTool.forward chat none none context = .error PyError.typeError) :=
  ⟨rfl, fun _ _ => rfl, fun _ _ => rfl⟩
